import Mathlib

/-!
# FloatChat repository: verified shallow embedding

Shallow embedding of the FloatChat demo platform (Streamlit chat demo
`app.py`, FastAPI prototype `argo-platform/backend/app/simple_main.py`,
service layer `data_service.py` / `alert_service.py`), together with
theorems settling the specification claims about it.

Python machine floats are modelled as `ℚ`; strings as Lean `String`
restricted to ASCII (all literals in the source are ASCII); Python's
substring test `kw in s` as an executable infix search; fallible calls
as `Except`/`Option` values threaded explicitly.
-/

/- Batteries marks the `Rat` field operations `@[irreducible]`; witness
evaluation by `decide` needs them to unfold, so restore the default
reducibility (the definitions themselves are unchanged). -/
set_option allowUnsafeReducibility true
attribute [semireducible] Rat.add Rat.mul Rat.inv Rat.sub

/-! ## String helpers (Python `lower`, `upper`, `in`, `rstrip`) -/

/-- Python `str.lower()` (ASCII). -/
def lowerStr (s : String) : String := String.mk (s.data.map Char.toLower)

/-- Python `str.upper()` (ASCII). -/
def upperStr (s : String) : String := String.mk (s.data.map Char.toUpper)

/-- Python's substring containment `needle in hay`. -/
def containsSub (needle hay : String) : Bool :=
  (List.range (hay.data.length + 1)).any fun i =>
    needle.data.isPrefixOf (hay.data.drop i)

/-- Python `s.rstrip(";")`: remove all trailing semicolons. -/
def rstripSemi (s : String) : String :=
  String.mk ((s.data.reverse.dropWhile (fun c => c = ';')).reverse)

/-- Python truthiness of an optional string (`if error:`): `None` and the
empty string are falsy. -/
def pyTruthy (o : Option String) : Bool :=
  match o with
  | none => false
  | some s => if s = "" then false else true

/-! ## Python `round` (banker's rounding) on rationals -/

/-- Python's `round(q)`: nearest integer, ties to even. -/
def pyRound (q : ℚ) : ℤ :=
  if q - ⌊q⌋ < 1/2 then ⌊q⌋
  else if 1/2 < q - ⌊q⌋ then ⌊q⌋ + 1
  else if ⌊q⌋ % 2 = 0 then ⌊q⌋ else ⌊q⌋ + 1

/-- Rounding to a decimal scale: `roundDec 100 q` is Python `round(q, 2)`. -/
def roundDec (s : ℕ) (q : ℚ) : ℚ := (pyRound (q * s) : ℚ) / s

/-- Python `round(q, 2)`. -/
def round2 (q : ℚ) : ℚ := roundDec 100 q

/-- Python `round(q, 4)`. -/
def round4 (q : ℚ) : ℚ := roundDec 10000 q

/-! ## `app.py`: `NaturalLanguageParser` -/

namespace App

/-- One entry of the regex search `float\s+(\d+)` (Python `re.search`):
try to match `"float"`, then one or more whitespace characters (ASCII
`\s`: space, tab, LF, VT, FF, CR), then the maximal run of one or more
ASCII digits, at the head of `cs`; return the captured digits.  Since
`\s` and `\d` are disjoint character classes the greedy match needs no
backtracking. -/
def matchFloatAt (cs : List Char) : Option (List Char) :=
  if "float".data.isPrefixOf cs then
    let rest := cs.drop 5
    let ws := rest.takeWhile (fun c =>
      c = ' ' || c = '\t' || c = '\n' || c = '\x0b' || c = '\x0c' || c = '\r')
    if ws.isEmpty then none
    else
      let ds := (rest.drop ws.length).takeWhile Char.isDigit
      if ds.isEmpty then none else some ds
  else none

/-- `re.search(r"float\s+(\d+)", s)`: leftmost match, captured digits. -/
def searchFloatId : List Char → Option (List Char)
  | [] => none
  | c :: cs =>
    match matchFloatAt (c :: cs) with
    | some ds => some ds
    | none => searchFloatId cs

/-- The pattern table built in `NaturalLanguageParser.__init__`, in
declaration order: name, keywords, SQL template. -/
def patternList : List (String × List String × String) :=
  [ ("salinity_near_equator", (["salinity", "equator", "near equator"],
      "SELECT * FROM argo_data WHERE lat BETWEEN -5 AND 5 AND time LIKE \x27%2023-03%\x27")),
    ("temperature_by_depth", (["temperature", "depth"],
      "SELECT depth, AVG(temperature) as avg_temperature FROM argo_data GROUP BY depth ORDER BY depth")),
    ("all_march_data", (["march", "2023", "march 2023"],
      "SELECT * FROM argo_data WHERE time LIKE \x27%2023-03%\x27")),
    ("surface_data", (["surface", "surface water"],
      "SELECT * FROM argo_data WHERE depth <= 50")),
    ("deep_water", (["deep", "deep water"],
      "SELECT * FROM argo_data WHERE depth >= 500")),
    ("float_specific", (["float"],
      "SELECT * FROM argo_data WHERE float_id = \x7bfloat_id\x7d")),
    ("all_data", (["all", "everything", "show all"],
      "SELECT * FROM argo_data")) ]

/-- Does any keyword of the pattern occur in the lowercased query? -/
def keywordHits (p : String × List String × String) (ql : String) : Bool :=
  p.2.1.any (fun kw => containsSub kw ql)

/-- The pattern loop of `parse_query`: first pattern (in declaration
order) with a matching keyword wins. -/
def matchPatterns (ql : String) : List (String × List String × String) → Option String
  | [] => none
  | p :: ps => if keywordHits p ql then some p.2.2 else matchPatterns ql ps

/-- `NaturalLanguageParser.parse_query`. -/
def parse_query (userQuery : String) : String :=
  match searchFloatId (lowerStr userQuery).data with
  | some ds => "SELECT * FROM argo_data WHERE float_id = " ++ String.mk ds
  | none =>
    match matchPatterns (lowerStr userQuery) patternList with
    | some t => t
    | none => "SELECT * FROM argo_data LIMIT 10"

/-- The explanation table of `generate_explanation`, in declaration order. -/
def explanationList : List (String × String) :=
  [ ("salinity", "Analyzing salinity measurements"),
    ("temperature", "Examining temperature data"),
    ("equator", "Filtering data near the equatorial region"),
    ("depth", "Grouping data by depth levels"),
    ("march", "Focusing on March 2023 measurements"),
    ("surface", "Looking at surface water data"),
    ("deep", "Examining deep water measurements") ]

/-- `NaturalLanguageParser.generate_explanation` (the `sql_query`
argument is unused in the source as well). -/
def generate_explanation (userQuery _sqlQuery : String) : String :=
  let ql := lowerStr userQuery
  let parts := explanationList.filterMap
    (fun p => if containsSub p.1 ql then some p.2 else none)
  if parts.isEmpty then "Query interpretation: Retrieving ARGO ocean data"
  else "Query interpretation: " ++ String.intercalate ", " parts

end App



/-! ## Shared numeric list helpers (`np.mean`, `np.std`, `min`, `max`) -/

/-- `np.mean` over a list of rationals (0 on the empty list, as `x / 0 = 0`). -/
def listMean (xs : List ℚ) : ℚ := xs.sum / xs.length

/-- Population variance, the square of `np.std` (default `ddof=0`). -/
def listVar (xs : List ℚ) : ℚ :=
  (xs.map (fun x => (x - listMean xs) ^ 2)).sum / xs.length

/-- Fold-based minimum seeded with the head (callers guard non-emptiness). -/
def listLow {α : Type} [LinearOrder α] [Inhabited α] (xs : List α) : α :=
  xs.foldl min (xs.headD default)

/-- Fold-based maximum seeded with the head (callers guard non-emptiness). -/
def listHigh {α : Type} [LinearOrder α] [Inhabited α] (xs : List α) : α :=
  xs.foldl max (xs.headD default)

/-- `np.random.uniform lo hi` expressed through an abstract stream `u` of
unit-interval draws: the `i`-th draw scaled to `[lo, hi)`. -/
def uniformOf (u : ℕ → ℚ) (i : ℕ) (lo hi : ℚ) : ℚ := lo + (hi - lo) * u i

/-! ## `app.py`: `ARGODataManager.create_sample_data` and the chat handler -/

namespace App

/-- One row of the demo dataset / of a query result dataframe.  The Lean
structure witnesses that every record carries all required fields. -/
structure SampleRecord where
  float_id : ℕ
  lat : ℚ
  lon : ℚ
  time : ℤ
  depth : ℚ
  temperature : ℚ
  salinity : ℚ
deriving DecidableEq

/-- The random draws `create_sample_data` consumes: a stream of
unit-interval uniforms plus the three `np.random.choice`/`randint`
index streams.  (`np.random.seed(42)` fixes one such stream; the numpy
Mersenne Twister itself is not modelled.) -/
structure Rng where
  unit : ℕ → ℚ
  floatIdx : ℕ → Fin 3
  dayIdx : ℕ → Fin 31
  depthIdx : ℕ → Fin 8

/-- The contract of `np.random.uniform`: unit draws lie in `[0, 1)`. -/
def Rng.Valid (r : Rng) : Prop := ∀ i, 0 ≤ r.unit i ∧ r.unit i < 1

/-- `np.random.choice([1001, 1002, 1003])`. -/
def floatChoices : Fin 3 → ℕ
  | 0 => 1001
  | 1 => 1002
  | 2 => 1003

/-- `np.random.choice([0, 10, 50, 100, 200, 500, 1000, 2000])`. -/
def depthChoices : Fin 8 → ℚ
  | 0 => 0
  | 1 => 10
  | 2 => 50
  | 3 => 100
  | 4 => 200
  | 5 => 500
  | 6 => 1000
  | 7 => 2000

/-- One record of `create_sample_data`: per-depth-band temperature,
salinity in `[34, 37)`, equatorial latitude, Pacific longitude, a March
2023 day offset; values rounded as in the source. -/
def sampleRecord (r : Rng) (i : ℕ) : SampleRecord :=
  let depth : ℚ := depthChoices (r.depthIdx i)
  { float_id := floatChoices (r.floatIdx i)
    lat := round4 (uniformOf r.unit (4 * i) (-10) 10)
    lon := round4 (uniformOf r.unit (4 * i + 1) 120 180)
    time := (r.dayIdx i : ℤ)
    depth := depth
    temperature := round2
      (if depth ≤ 50 then uniformOf r.unit (4 * i + 2) 25 30
       else if depth ≤ 200 then uniformOf r.unit (4 * i + 2) 20 25
       else uniformOf r.unit (4 * i + 2) 2 8)
    salinity := round2 (uniformOf r.unit (4 * i + 3) 34 37) }

/-- `ARGODataManager.create_sample_data`: 30 records. -/
def create_sample_data (r : Rng) : List SampleRecord :=
  (List.range 30).map (sampleRecord r)

/-- `generate_ai_summary(df, user_query)`: the "No data" message on a
missing or empty dataframe, otherwise the joined statistics line.
(Python's `:.1f` float formatting is rendered as plain `toString`.) -/
def generate_ai_summary (df : Option (List SampleRecord)) : String :=
  match df with
  | none => "No data found for your query."
  | some rows =>
    if rows.isEmpty then "No data found for your query."
    else
      String.intercalate " | "
        [ "Found " ++ toString rows.length ++ " data points",
          "Average temperature: " ++ toString (listMean (rows.map (·.temperature))) ++ "°C",
          "Average salinity: " ++ toString (listMean (rows.map (·.salinity))) ++ " PSU",
          "Depth range: " ++ toString (listLow (rows.map (·.depth))) ++ "-"
            ++ toString (listHigh (rows.map (·.depth))) ++ "m",
          "Time period: " ++ toString (listLow (rows.map (·.time))) ++ " to "
            ++ toString (listHigh (rows.map (·.time))) ]

/-- The assistant-response branch of `main()` after
`df, error = data_manager.execute_query(sql_query)`: error apology if a
(truthy) error string was returned, the "No data" reply on a missing or
empty dataframe, otherwise the summary reply. -/
def chat_response (df : Option (List SampleRecord)) (err : Option String) : String :=
  if pyTruthy err then
    "Sorry, there was an error processing your query: " ++ err.getD ""
  else
    match df with
    | none => "No data found matching your criteria."
    | some rows =>
      if rows.isEmpty then "No data found matching your criteria."
      else "Found " ++ toString rows.length ++ " records. " ++ generate_ai_summary df

end App

/-! ## `alert_service.py`: anomaly detection -/

namespace Alert

/-- The four severity labels of `_calculate_severity`. -/
inductive Severity where
  | low
  | medium
  | high
  | extreme
deriving DecidableEq, Repr

/-- Tier order `low < medium < high < extreme`. -/
def Severity.rank : Severity → ℕ
  | .low => 0
  | .medium => 1
  | .high => 2
  | .extreme => 3

/-- `AlertService._calculate_severity(deviation, std_dev)`. -/
def calculate_severity (deviation stdDev : ℚ) : Severity :=
  if deviation > 3 * stdDev then .extreme
  else if deviation > 2 * stdDev then .high
  else if deviation > 3 / 2 * stdDev then .medium
  else .low

/-- `_calculate_severity` with both comparands squared: the branch on
`deviation > k * sqrt v` is taken exactly when `deviation ^ 2 > k ^ 2 * v`
(see `calculate_severity_sq_eq`), which keeps the detector inside `ℚ`. -/
def severitySq (devSq v : ℚ) : Severity :=
  if devSq > 9 * v then .extreme
  else if devSq > 4 * v then .high
  else if devSq > 9 / 4 * v then .medium
  else .low

/-- One surface measurement row fed to a detector (the SQL in the source
already filtered to the last seven days, non-null variable, depth ≤ 10;
`value` is the temperature or salinity column). -/
structure Measurement where
  latitude : ℚ
  longitude : ℚ
  value : ℚ
deriving DecidableEq

/-- An emitted anomaly (the fields the detectors derive from the cell;
dates and the confidence score are not modelled). -/
structure Anomaly where
  anomalyType : String
  severity : Severity
  latKey : ℤ
  lonKey : ℤ
deriving DecidableEq

/-- `(round(lat), round(lon))`: the 1-degree grid cell of a measurement. -/
def cellKey (m : Measurement) : ℤ × ℤ := (pyRound m.latitude, pyRound m.longitude)

/-- The keys of the `location_groups` dict in first-insertion order. -/
def groupKeys (ms : List Measurement) : List (ℤ × ℤ) :=
  ms.foldl (fun ks m => if cellKey m ∈ ks then ks else ks ++ [cellKey m]) []

/-- The measurements of one grid cell, in insertion order. -/
def cellGroup (ms : List Measurement) (k : ℤ × ℤ) : List Measurement :=
  ms.filter (fun m => cellKey m = k)

/-- The `deviation` local of the per-cell loop: group mean minus global
mean. -/
def cellDev (globalMean : ℚ) (ms : List Measurement) (k : ℤ × ℤ) : ℚ :=
  listMean ((cellGroup ms k).map Measurement.value) - globalMean

/-- The body of the per-cell loop: flag the cell when its group mean
deviates from the global mean by more than `mult` standard deviations
(the comparison `|dev| > mult * sqrt v` taken in the equivalent squared
form, see `deviation_flag_sq_eq`), and build the anomaly record. -/
def emitCell (mult : ℚ) (posType negType : String) (globalMean globalVar : ℚ)
    (ms : List Measurement) (k : ℤ × ℤ) : Option Anomaly :=
  if cellDev globalMean ms k ^ 2 > mult ^ 2 * globalVar then
    some { anomalyType := if cellDev globalMean ms k > 0 then posType else negType
           severity := severitySq (cellDev globalMean ms k ^ 2) globalVar
           latKey := k.1
           lonKey := k.2 }
  else none

/-- Common body of `_detect_temperature_anomalies` /
`_detect_salinity_anomalies` (they differ only in the variable column,
the multiplier and the anomaly-type names): require at least 10
measurements, compute global mean and variance, then walk the grid
cells in insertion order appending an anomaly for each flagged cell. -/
def detectAnomaliesBy (mult : ℚ) (posType negType : String)
    (ms : List Measurement) : List Anomaly :=
  if ms.length < 10 then []
  else
    (groupKeys ms).foldl
      (fun acc k =>
        acc ++ (emitCell mult posType negType (listMean (ms.map Measurement.value))
          (listVar (ms.map Measurement.value)) ms k).toList)
      []

/-- `AlertService._detect_temperature_anomalies` on its fetched rows:
2-standard-deviation threshold, `heatwave` / `cold_spell`. -/
def detect_temperature_anomalies (ms : List Measurement) : List Anomaly :=
  detectAnomaliesBy 2 "heatwave" "cold_spell" ms

/-- `AlertService._detect_salinity_anomalies` on its fetched rows:
1.5-standard-deviation threshold, `high_salinity` / `low_salinity`. -/
def detect_salinity_anomalies (ms : List Measurement) : List Anomaly :=
  detectAnomaliesBy (3 / 2) "high_salinity" "low_salinity" ms

end Alert

/-! ## `simple_main.py`: keyword query processing and demo login -/

namespace SM

/-- `process_natural_language_query`: the ordered `if`/`elif` keyword
chain, returning `(sql, explanation)`. -/
def process_natural_language_query (query : String) : String × String :=
  let ql := lowerStr query
  if ["temperature", "temp", "thermal", "warm", "cold", "heat"].any
      (fun w => containsSub w ql) then
    if containsSub "high" ql || containsSub "warm" ql || containsSub "hot" ql then
      ("SELECT * FROM argo_profiles WHERE ocean_temperature IS NOT NULL ORDER BY ocean_temperature DESC LIMIT 10",
       "Finding the highest/warmest ocean temperature measurements")
    else if containsSub "low" ql || containsSub "cold" ql || containsSub "cool" ql then
      ("SELECT * FROM argo_profiles WHERE ocean_temperature IS NOT NULL ORDER BY ocean_temperature ASC LIMIT 10",
       "Finding the lowest/coldest ocean temperature measurements")
    else
      ("SELECT float_id, ocean_temperature, latitude, longitude, date_time FROM argo_profiles WHERE ocean_temperature IS NOT NULL ORDER BY date_time DESC LIMIT 15",
       "Retrieving recent ocean temperature data from ARGO profiles")
  else if ["salinity", "salt", "saline"].any (fun w => containsSub w ql) then
    if containsSub "high" ql then
      ("SELECT * FROM argo_profiles WHERE salinity IS NOT NULL ORDER BY salinity DESC LIMIT 10",
       "Finding areas with highest salinity levels")
    else if containsSub "low" ql then
      ("SELECT * FROM argo_profiles WHERE salinity IS NOT NULL ORDER BY salinity ASC LIMIT 10",
       "Finding areas with lowest salinity levels")
    else
      ("SELECT float_id, salinity, latitude, longitude, date_time FROM argo_profiles WHERE salinity IS NOT NULL ORDER BY date_time DESC LIMIT 15",
       "Retrieving recent salinity measurements from ARGO profiles")
  else if ["pressure", "depth", "deep", "shallow"].any (fun w => containsSub w ql) then
    if containsSub "deep" ql || containsSub "high" ql then
      ("SELECT * FROM argo_profiles WHERE pressure IS NOT NULL ORDER BY pressure DESC LIMIT 10",
       "Finding measurements from deepest locations (highest pressure)")
    else
      ("SELECT float_id, pressure, ocean_temperature, salinity, date_time FROM argo_profiles WHERE pressure IS NOT NULL ORDER BY pressure DESC LIMIT 15",
       "Retrieving pressure/depth data from ARGO profiles")
  else if ["pacific", "atlantic", "indian", "ocean", "location", "where"].any
      (fun w => containsSub w ql) then
    ("SELECT float_id, latitude, longitude, project_name, status FROM argo_floats ORDER BY deployment_date DESC LIMIT 15",
     "Showing ARGO float locations and deployment information")
  else if ["anomal", "unusual", "strange", "alert", "problem", "issue"].any
      (fun w => containsSub w ql) then
    if containsSub "temperature" ql then
      ("SELECT * FROM ocean_anomalies WHERE anomaly_type LIKE \x27%temperature%\x27 ORDER BY detected_at DESC LIMIT 10",
       "Retrieving temperature-related anomalies detected by the system")
    else if containsSub "salinity" ql then
      ("SELECT * FROM ocean_anomalies WHERE anomaly_type LIKE \x27%salinity%\x27 ORDER BY detected_at DESC LIMIT 10",
       "Retrieving salinity-related anomalies detected by the system")
    else
      ("SELECT * FROM ocean_anomalies ORDER BY confidence DESC, detected_at DESC LIMIT 10",
       "Retrieving recent ocean anomalies detected by the system")
  else if ["float", "buoy", "sensor", "device", "platform"].any
      (fun w => containsSub w ql) then
    if containsSub "active" ql then
      ("SELECT * FROM argo_floats WHERE status = \x27active\x27 ORDER BY deployment_date DESC",
       "Retrieving information about currently active ARGO floats")
    else if containsSub "project" ql then
      ("SELECT project_name, COUNT(*) as float_count, data_center FROM argo_floats GROUP BY project_name, data_center ORDER BY float_count DESC",
       "Showing ARGO float distribution by research projects")
    else
      ("SELECT * FROM argo_floats ORDER BY deployment_date DESC LIMIT 10",
       "Retrieving information about ARGO floats")
  else if ["data", "measurement", "profile", "sample", "record"].any
      (fun w => containsSub w ql) then
    if containsSub "recent" ql || containsSub "latest" ql || containsSub "new" ql then
      ("SELECT * FROM argo_profiles ORDER BY date_time DESC LIMIT 15",
       "Showing the most recent oceanographic measurements")
    else
      ("SELECT COUNT(*) as total_profiles, AVG(ocean_temperature) as avg_temp, AVG(salinity) as avg_salinity FROM argo_profiles",
       "Providing summary statistics of all oceanographic data")
  else if ["scientist", "researcher", "pi", "principal", "investigator"].any
      (fun w => containsSub w ql) then
    ("SELECT pi_name, project_name, COUNT(*) as float_count FROM argo_floats GROUP BY pi_name, project_name ORDER BY float_count DESC",
     "Showing research projects and principal investigators")
  else if ["today", "yesterday", "week", "month", "year", "recent"].any
      (fun w => containsSub w ql) then
    ("SELECT * FROM argo_profiles ORDER BY date_time DESC LIMIT 20",
     "Showing recent oceanographic measurements ordered by date")
  else
    ("SELECT * FROM argo_floats LIMIT 8",
     "Showing sample ARGO float data for query: \x27" ++ query
       ++ "\x27. Try asking about temperature, salinity, anomalies, floats, locations, or recent data!")

/-- The response value of `POST /api/auth/login`. -/
structure LoginResponse where
  userId : String
  email : String
  fullName : String
  role : String
  accessToken : String
  tokenType : String
deriving DecidableEq

/-- Python `credentials.get("email", "")` on a dict modelled as an
association list. -/
def getField (creds : List (String × String)) (key : String) : String :=
  match creds.find? (fun p => p.1 == key) with
  | some p => p.2
  | none => ""

/-- The `login` endpoint: accepts any credentials, picks role and display
name from substrings of the email (the source computes both in one
`if`/`elif` chain; the two aligned chains here mirror it). -/
def login (creds : List (String × String)) : LoginResponse :=
  let email := getField creds "email"
  let role :=
    if containsSub "scientist" email then "scientist"
    else if containsSub "policy" email then "policy_maker"
    else if containsSub "student" email then "student"
    else "scientist"
  let name :=
    if containsSub "scientist" email then "Dr. Ocean Scientist"
    else if containsSub "policy" email then "Policy Maker"
    else if containsSub "student" email then "Marine Student"
    else "Demo User"
  { userId := "demo_" ++ role
    email := email
    fullName := name
    role := role
    accessToken := "demo_token_" ++ role
    tokenType := "bearer" }

end SM

/-! ## `data_service.py`: query execution with fallback -/

namespace DS

/-- A result cell: SQL rows are heterogeneous dicts. -/
inductive Val where
  | num : ℚ → Val
  | str : String → Val
deriving DecidableEq

/-- One result row as a field/value dict. -/
abbrev Row := List (String × Val)

/-- Random draws consumed by `_generate_sample_data` (`np.random.seed(42)`
fixes one such stream) together with the `datetime.now()` offsets. -/
structure Rng where
  unit : ℕ → ℚ
  depthIdx : ℕ → Fin 7
  daysAgo : ℕ → Fin 365

/-- `np.random.choice([0, 10, 50, 100, 200, 500, 1000])`. -/
def dsDepthChoices : Fin 7 → ℚ
  | 0 => 0
  | 1 => 10
  | 2 => 50
  | 3 => 100
  | 4 => 200
  | 5 => 500
  | 6 => 1000

/-- One synthetic row of `DataService._generate_sample_data` (dates are
modelled as day offsets from now; ISO rendering is not modelled). -/
def dsRecord (r : Rng) (i : ℕ) : Row :=
  let depth := dsDepthChoices (r.depthIdx i)
  [ ("latitude", Val.num (round4 (uniformOf r.unit (4 * i) (-60) 60))),
    ("longitude", Val.num (round4 (uniformOf r.unit (4 * i + 1) (-180) 180))),
    ("profile_date", Val.num (-(r.daysAgo i : ℚ))),
    ("depth", Val.num depth),
    ("temperature", Val.num (round2
      (if depth ≤ 50 then uniformOf r.unit (4 * i + 2) 15 30
       else if depth ≤ 200 then uniformOf r.unit (4 * i + 2) 8 20
       else uniformOf r.unit (4 * i + 2) 2 8))),
    ("salinity", Val.num (round2 (uniformOf r.unit (4 * i + 3) 34 37))),
    ("float_id", Val.str ("FLOAT_" ++ toString (1000 + i % 10))) ]

/-- `DataService._generate_sample_data`: 50 synthetic records. -/
def generate_sample_data (r : Rng) : List Row :=
  (List.range 50).map (dsRecord r)

/-- The database session as an oracle: running a SQL text either yields
rows or raises (`Except.error`); `sampleJoin` is the outcome of the fixed
ORM join query issued by `get_sample_data` (its row formatting is kept
abstract). -/
structure Db where
  run : String → Except String (List Row)
  sampleJoin : Except String (List Row)

/-- The safety-limit rewrite at the top of `execute_query`: append
`LIMIT 10000` (`max_query_results`) when the text has no `LIMIT`. -/
def addLimit (sql : String) : String :=
  if containsSub "LIMIT" (upperStr sql) then sql
  else rstripSemi sql ++ " LIMIT 10000;"

/-- `DataService.get_sample_data`: try the sample join query, fall back to
the synthetic generator on any exception. -/
def get_sample_data (db : Db) (r : Rng) : List Row :=
  match db.sampleJoin with
  | Except.ok rows => rows
  | Except.error _ => generate_sample_data r

/-- `DataService.execute_query`: run the (limit-adjusted) SQL; on any
exception fall back to `get_sample_data`. -/
def execute_query (db : Db) (r : Rng) (sql : String) : List Row :=
  match db.run (addLimit sql) with
  | Except.ok rows => rows
  | Except.error _ => get_sample_data db r

end DS

/-! ## SELECT-only classification of parser output -/

/-- A SQL text is a SELECT statement when it begins with `SELECT`. -/
def isSelect (s : String) : Prop := s.data.take 6 = "SELECT".data

instance (s : String) : Decidable (isSelect s) := by
  unfold isSelect; exact inferInstance

/-- Modelled from the spec: the demo executes the parser's SQL against the
in-memory `argo_data` table through the SQLite read path
(`pandas.read_sql_query`, external to `src/`); a SELECT statement leaves
the table unchanged, while a mutating statement may rewrite it (modelled
destructively here). -/
def execEffect {α : Type} (tbl : List α) (sql : String) : List α :=
  if isSelect sql then tbl else []

/-! ## Concrete fixtures used by witnesses and counterexamples -/

/-- Nine surface measurements: eight in cell `(0,0)` with value 0 and one
in cell `(5,5)` with value 9 (global mean 1, variance 8). -/
def exNine : List Alert.Measurement :=
  List.replicate 8 ⟨0, 0, 0⟩ ++ [⟨5, 5, 9⟩]

/-- Ten surface measurements: nine in cell `(0,0)` with value 0 and one in
cell `(5,5)` with value 10 (global mean 1, variance 9). -/
def exTen : List Alert.Measurement :=
  List.replicate 9 ⟨0, 0, 0⟩ ++ [⟨5, 5, 10⟩]

/-- A constant, valid random stream for `app.py` sampling. -/
def constAppRng : App.Rng := ⟨fun _ => 0, fun _ => 0, fun _ => 0, fun _ => 0⟩

/-- A constant random stream for `data_service.py` sampling. -/
def constDsRng : DS.Rng := ⟨fun _ => 0, fun _ => 0, fun _ => 0⟩

/-- A database whose every query raises. -/
def dbDown : DS.Db := ⟨fun _ => Except.error "db down", Except.error "no tables"⟩

/-! # Theorems -/

theorem intCast_le_pyRound (m : ℤ) (q : ℚ) (h : (m : ℚ) ≤ q) : m ≤ pyRound q := by
  have hf : m ≤ ⌊q⌋ := Int.le_floor.mpr h
  unfold pyRound
  split_ifs <;> omega

theorem pyRound_le_intCast (m : ℤ) (q : ℚ) (h : q ≤ (m : ℚ)) : pyRound q ≤ m := by
  have hf : ⌊q⌋ ≤ m := by
    have := Int.floor_le_floor h
    simpa using this
  unfold pyRound
  split_ifs with h1 h2 h3
  · exact hf
  · -- fractional part exceeds 1/2, so q is not an integer and ⌊q⌋ < m
    have hlt : (⌊q⌋ : ℚ) < q := by linarith
    have : (⌊q⌋ : ℚ) < (m : ℚ) := lt_of_lt_of_le hlt h
    have : ⌊q⌋ < m := by exact_mod_cast this
    omega
  · exact hf
  · have hge : (1:ℚ)/2 ≤ q - ⌊q⌋ := le_of_not_lt h1
    have hlt : (⌊q⌋ : ℚ) < q := by linarith
    have : (⌊q⌋ : ℚ) < (m : ℚ) := lt_of_lt_of_le hlt h
    have : ⌊q⌋ < m := by exact_mod_cast this
    omega

theorem roundDec_ge (a : ℤ) (s : ℕ) (hs : 0 < s) (q : ℚ) (h : (a : ℚ) ≤ q) :
    (a : ℚ) ≤ roundDec s q := by
  have hsq : (0:ℚ) < (s : ℚ) := by exact_mod_cast hs
  have h1 : ((a * s : ℤ) : ℚ) ≤ q * s := by
    push_cast
    exact mul_le_mul_of_nonneg_right h (le_of_lt hsq)
  have h2 : (a * s : ℤ) ≤ pyRound (q * s) := intCast_le_pyRound _ _ h1
  have h3 : ((a * s : ℤ) : ℚ) ≤ (pyRound (q * s) : ℚ) := by exact_mod_cast h2
  rw [roundDec, le_div_iff₀ hsq]
  push_cast at h3 ⊢
  linarith

theorem roundDec_le (b : ℤ) (s : ℕ) (hs : 0 < s) (q : ℚ) (h : q ≤ (b : ℚ)) :
    roundDec s q ≤ (b : ℚ) := by
  have hsq : (0:ℚ) < (s : ℚ) := by exact_mod_cast hs
  have h1 : q * s ≤ ((b * s : ℤ) : ℚ) := by
    push_cast
    exact mul_le_mul_of_nonneg_right h (le_of_lt hsq)
  have h2 : pyRound (q * s) ≤ b * s := pyRound_le_intCast _ _ h1
  have h3 : (pyRound (q * s) : ℚ) ≤ ((b * s : ℤ) : ℚ) := by exact_mod_cast h2
  rw [roundDec, div_le_iff₀ hsq]
  push_cast at h3 ⊢
  linarith


/-! ## Pattern-loop lemmas for `parse_query` -/

theorem matchPatterns_mem (ql t : String) :
    ∀ l, App.matchPatterns ql l = some t → ∃ p, p ∈ l ∧ t = p.2.2 := by
  intro l
  induction l with
  | nil => intro h; simp [App.matchPatterns] at h
  | cons p ps ih =>
    intro h
    by_cases hp : App.keywordHits p ql = true
    · refine ⟨p, List.mem_cons_self p ps, ?_⟩
      simp [App.matchPatterns, hp] at h
      exact h.symm
    · simp [App.matchPatterns, hp] at h
      obtain ⟨r, hr, ht⟩ := ih h
      exact ⟨r, List.mem_cons_of_mem p hr, ht⟩

/-- C7: keyword matching is deterministic — both translators are pure
functions of the input query alone (in particular `generate_explanation`
does not depend on its SQL argument). -/
theorem nl_translation_deterministic (q1 q2 sqlA sqlB : String) (h : q1 = q2) :
    App.parse_query q1 = App.parse_query q2 ∧
    App.generate_explanation q1 sqlA = App.generate_explanation q2 sqlB ∧
    SM.process_natural_language_query q1 = SM.process_natural_language_query q2 := by
  subst h
  exact ⟨rfl, rfl, rfl⟩

/-- C7 witness at a concrete pair of identical queries. -/
theorem nl_translation_deterministic_check :
    App.parse_query "warm surface water" = App.parse_query "warm surface water" ∧
    App.generate_explanation "warm surface water" "SELECT 1" =
      App.generate_explanation "warm surface water" "SELECT 2" ∧
    SM.process_natural_language_query "warm surface water" =
      SM.process_natural_language_query "warm surface water" :=
  nl_translation_deterministic "warm surface water" "warm surface water"
    "SELECT 1" "SELECT 2" rfl

/-- C8: every SQL string `parse_query` can return — a pattern template,
the float-id query or the fallback — is a SELECT statement, so executing
it leaves the `argo_data` table unchanged. -/
theorem parse_query_select_only (q : String) {α : Type} (tbl : List α) :
    isSelect (App.parse_query q) ∧ execEffect tbl (App.parse_query q) = tbl := by
  have hsel : isSelect (App.parse_query q) := by
    unfold App.parse_query
    split
    · -- float-id regex branch
      next ds _ =>
      unfold isSelect
      rw [show ("SELECT * FROM argo_data WHERE float_id = " ++ String.mk ds).data
            = "SELECT * FROM argo_data WHERE float_id = ".data ++ ds from rfl]
      rw [List.take_append_of_le_length (by decide)]
      decide
    · split
      · -- first matching pattern's template
        next t hm =>
        obtain ⟨p, hp, ht⟩ := matchPatterns_mem (lowerStr q) t App.patternList hm
        subst ht
        fin_cases hp <;> decide
      · -- fallback
        decide
  exact ⟨hsel, by unfold execEffect; rw [if_pos hsel]⟩

/-! ## Severity and detection lemmas -/

/-- The squared comparison used in the embedding agrees with the source's
comparison of `|x|` against `k` standard deviations, for any nonnegative
standard deviation `sd` with `sd ^ 2 = v`. -/
theorem deviation_flag_sq_eq (x sd v k : ℚ) (hsd : 0 ≤ sd) (hk : 0 ≤ k)
    (hv : sd ^ 2 = v) : |x| > k * sd ↔ x ^ 2 > k ^ 2 * v := by
  subst hv
  constructor
  · intro h
    have h2 : 0 ≤ k * sd := mul_nonneg hk hsd
    have h3 := mul_self_lt_mul_self h2 h
    nlinarith [sq_abs x]
  · intro h
    by_contra hc
    push_neg at hc
    have h3 := mul_self_le_mul_self (abs_nonneg x) hc
    nlinarith [sq_abs x]

/-- `severitySq` agrees with the source's `_calculate_severity` applied to
a nonnegative deviation and the standard deviation `sd = sqrt v`. -/
theorem calculate_severity_sq_eq (d sd v : ℚ) (hd : 0 ≤ d) (hsd : 0 ≤ sd)
    (hv : sd ^ 2 = v) :
    Alert.calculate_severity d sd = Alert.severitySq (d ^ 2) v := by
  subst hv
  unfold Alert.calculate_severity Alert.severitySq
  split_ifs <;> first
    | rfl
    | (exfalso; nlinarith)

/-- C3: for a fixed standard deviation, a larger (nonnegative) deviation
never yields a lower severity tier. -/
theorem calculate_severity_monotone (s d1 d2 : ℚ) (h0 : 0 ≤ d2) (h12 : d2 ≤ d1) :
    (Alert.calculate_severity d2 s).rank ≤ (Alert.calculate_severity d1 s).rank := by
  unfold Alert.calculate_severity
  split_ifs <;> simp [Alert.Severity.rank] <;> linarith

/-- C3 witness at deviations 4 ≥ 2 with standard deviation 1. -/
theorem calculate_severity_monotone_check :
    (Alert.calculate_severity 2 1).rank ≤ (Alert.calculate_severity 4 1).rank :=
  calculate_severity_monotone 1 4 2 (by norm_num) (by norm_num)

theorem foldl_append_toList_acc {α β : Type} (f : α → Option β) :
    ∀ (l : List α) (acc : List β),
      l.foldl (fun a k => a ++ (f k).toList) acc
        = acc ++ l.foldl (fun a k => a ++ (f k).toList) [] := by
  intro l
  induction l with
  | nil => intro acc; simp
  | cons k ks ih =>
    intro acc
    simp only [List.foldl_cons, List.nil_append]
    rw [ih (acc ++ (f k).toList), ih ((f k).toList), List.append_assoc]

theorem mem_foldl_append_toList {α β : Type} (f : α → Option β) (l : List α) (b : β) :
    b ∈ l.foldl (fun a k => a ++ (f k).toList) [] ↔ ∃ k, k ∈ l ∧ f k = some b := by
  induction l with
  | nil => simp
  | cons k ks ih =>
    simp only [List.foldl_cons, List.nil_append]
    rw [foldl_append_toList_acc]
    constructor
    · intro hb
      rcases List.mem_append.mp hb with h1 | h2
      · cases hf : f k with
        | some x =>
          rw [hf] at h1
          simp only [Option.toList_some, List.mem_singleton] at h1
          subst h1
          exact ⟨k, List.mem_cons_self k ks, hf⟩
        | none =>
          rw [hf] at h1
          simp at h1
      · obtain ⟨r, hr, hfr⟩ := ih.mp h2
        exact ⟨r, List.mem_cons_of_mem k hr, hfr⟩
    · rintro ⟨r, hr, hfr⟩
      rcases List.mem_cons.mp hr with hrk | hr2
      · subst hrk
        exact List.mem_append.mpr (Or.inl (by rw [hfr]; simp))
      · exact List.mem_append.mpr (Or.inr (ih.mpr ⟨r, hr2, hfr⟩))

theorem emitCell_eq_some_iff (mult : ℚ) (pt nt : String) (gm gv : ℚ)
    (ms : List Alert.Measurement) (k : ℤ × ℤ) (a : Alert.Anomaly) :
    Alert.emitCell mult pt nt gm gv ms k = some a ↔
      Alert.cellDev gm ms k ^ 2 > mult ^ 2 * gv ∧
      a = { anomalyType := if Alert.cellDev gm ms k > 0 then pt else nt
            severity := Alert.severitySq (Alert.cellDev gm ms k ^ 2) gv
            latKey := k.1
            lonKey := k.2 } := by
  unfold Alert.emitCell
  by_cases h : Alert.cellDev gm ms k ^ 2 > mult ^ 2 * gv
  · rw [if_pos h]
    simp only [Option.some.injEq]
    constructor
    · intro e
      exact ⟨h, e.symm⟩
    · rintro ⟨-, rfl⟩
      rfl
  · rw [if_neg h]
    constructor
    · intro e
      exact absurd e (by simp)
    · rintro ⟨hc, -⟩
      exact absurd hc h

/-- C2 (amended): over at least 10 recent surface measurements, the
detector emits an anomaly exactly for each one-degree cell (rounded
latitude/longitude) whose group mean deviates from the global mean by
more than `mult` standard deviations, and labels it with the severity
from the fixed deviation thresholds. -/
theorem detect_anomalies_cellwise (mult : ℚ) (pt nt : String)
    (ms : List Alert.Measurement) (h : 10 ≤ ms.length) (a : Alert.Anomaly) :
    a ∈ Alert.detectAnomaliesBy mult pt nt ms ↔
      ∃ k, k ∈ Alert.groupKeys ms ∧
        Alert.cellDev (listMean (ms.map Alert.Measurement.value)) ms k ^ 2
            > mult ^ 2 * listVar (ms.map Alert.Measurement.value) ∧
        a = { anomalyType :=
                if Alert.cellDev (listMean (ms.map Alert.Measurement.value)) ms k > 0
                then pt else nt
              severity := Alert.severitySq
                (Alert.cellDev (listMean (ms.map Alert.Measurement.value)) ms k ^ 2)
                (listVar (ms.map Alert.Measurement.value))
              latKey := k.1
              lonKey := k.2 } := by
  unfold Alert.detectAnomaliesBy
  rw [if_neg (by omega)]
  rw [mem_foldl_append_toList]
  exact exists_congr fun k => by rw [emitCell_eq_some_iff]

/-- C2 witness: on the ten-measurement fixture the cell `(5,5)` deviates
by three standard deviations, so exactly its heatwave anomaly (severity
`high`) is emitted. -/
theorem detect_anomalies_cellwise_check :
    (⟨"heatwave", Alert.Severity.high, 5, 5⟩ : Alert.Anomaly) ∈
      Alert.detectAnomaliesBy 2 "heatwave" "cold_spell" exTen :=
  (detect_anomalies_cellwise 2 "heatwave" "cold_spell" exTen (by decide)
      ⟨"heatwave", Alert.Severity.high, 5, 5⟩).mpr
    ⟨(5, 5), by decide, by decide, by decide⟩

/-- C2 counterexample: with only nine measurements the `< 10` guard makes
the detector return no anomalies although the cell `(5,5)` deviates from
the global mean by more than two standard deviations — so the claim's
"emits an anomaly exactly for each such cell" fails as stated. -/
theorem detect_min_measurements_cex :
    Alert.detectAnomaliesBy 2 "heatwave" "cold_spell" exNine = [] ∧
    (5, 5) ∈ Alert.groupKeys exNine ∧
    Alert.cellDev (listMean (exNine.map Alert.Measurement.value)) exNine (5, 5) ^ 2
        > 2 ^ 2 * listVar (exNine.map Alert.Measurement.value) := by
  exact ⟨by decide, by decide, by decide⟩

/-- C9: the severity label `low` is unreachable through automatic
detection — every temperature anomaly (flagged beyond 2 standard
deviations) is `high` or `extreme`, every salinity anomaly (flagged
beyond 1.5 standard deviations) is `medium`, `high` or `extreme`. -/
theorem detected_anomaly_severity_floor (ms : List Alert.Measurement)
    (a : Alert.Anomaly) :
    (a ∈ Alert.detect_temperature_anomalies ms →
      a.severity = Alert.Severity.high ∨ a.severity = Alert.Severity.extreme) ∧
    (a ∈ Alert.detect_salinity_anomalies ms →
      a.severity = Alert.Severity.medium ∨ a.severity = Alert.Severity.high ∨
        a.severity = Alert.Severity.extreme) := by
  constructor
  · intro ha
    unfold Alert.detect_temperature_anomalies Alert.detectAnomaliesBy at ha
    by_cases hlen : ms.length < 10
    · rw [if_pos hlen] at ha
      simp at ha
    · rw [if_neg hlen] at ha
      rw [mem_foldl_append_toList] at ha
      obtain ⟨k, -, hfk⟩ := ha
      rw [emitCell_eq_some_iff] at hfk
      obtain ⟨hflag, he⟩ := hfk
      norm_num at hflag
      have hsev : a.severity = Alert.severitySq
          (Alert.cellDev (listMean (ms.map Alert.Measurement.value)) ms k ^ 2)
          (listVar (ms.map Alert.Measurement.value)) := by rw [he]
      rw [hsev]
      unfold Alert.severitySq
      split_ifs with h9
      · right; rfl
      · left; rfl
  · intro ha
    unfold Alert.detect_salinity_anomalies Alert.detectAnomaliesBy at ha
    by_cases hlen : ms.length < 10
    · rw [if_pos hlen] at ha
      simp at ha
    · rw [if_neg hlen] at ha
      rw [mem_foldl_append_toList] at ha
      obtain ⟨k, -, hfk⟩ := ha
      rw [emitCell_eq_some_iff] at hfk
      obtain ⟨hflag, he⟩ := hfk
      norm_num at hflag
      have hsev : a.severity = Alert.severitySq
          (Alert.cellDev (listMean (ms.map Alert.Measurement.value)) ms k ^ 2)
          (listVar (ms.map Alert.Measurement.value)) := by rw [he]
      rw [hsev]
      unfold Alert.severitySq
      split_ifs with h9 h4b
      · right; right; rfl
      · right; left; rfl
      · left; rfl

/-- C9 witness: the heatwave anomaly the temperature detector emits on
the ten-measurement fixture has severity `high`. -/
theorem detected_anomaly_severity_floor_check :
    (⟨"heatwave", Alert.Severity.high, 5, 5⟩ : Alert.Anomaly).severity
        = Alert.Severity.high ∨
    (⟨"heatwave", Alert.Severity.high, 5, 5⟩ : Alert.Anomaly).severity
        = Alert.Severity.extreme :=
  (detected_anomaly_severity_floor exTen
    ⟨"heatwave", Alert.Severity.high, 5, 5⟩).1 (by decide)

/-! ## Chat handler, fallback chain, sampling bounds, login -/

/-- C4 (amended): when query execution reported no (truthy) error and the
result dataframe is missing or empty, the chat handler replies with the
"No data found matching your criteria." message and the summary generator
with "No data found for your query."; both are total functions, so no
unhandled error is raised. -/
theorem chat_empty_result_no_data (df : Option (List App.SampleRecord))
    (err : Option String) (herr : pyTruthy err = false)
    (hdf : df = none ∨ df = some []) :
    App.chat_response df err = "No data found matching your criteria." ∧
    App.generate_ai_summary df = "No data found for your query." := by
  rcases hdf with rfl | rfl
  · exact ⟨by simp [App.chat_response, herr], by simp [App.generate_ai_summary]⟩
  · exact ⟨by simp [App.chat_response, herr], by simp [App.generate_ai_summary]⟩

/-- C4 witness at a successful execution with a missing dataframe. -/
theorem chat_empty_result_no_data_check :
    App.chat_response none none = "No data found matching your criteria." ∧
    App.generate_ai_summary none = "No data found for your query." :=
  chat_empty_result_no_data none none rfl (Or.inl rfl)

/-- C4 counterexample: when execution raises, `execute_query` returns the
pair `(None, error)` — an absent dataframe — yet the handler replies with
the error apology, not a "no data" message, so the claim as stated (over
every empty-or-absent dataframe) fails. -/
theorem chat_error_branch_cex :
    App.chat_response none (some "database is locked") =
      "Sorry, there was an error processing your query: database is locked" ∧
    App.chat_response none (some "database is locked") ≠
      "No data found matching your criteria." ∧
    App.chat_response none (some "database is locked") ≠
      "No data found for your query." :=
  ⟨by decide, by decide, by decide⟩

/-- C5: if running the (limit-adjusted) SQL raises, `execute_query` does
not propagate the error: it returns `get_sample_data`, which yields the
sample join query's rows when that succeeds and the 50 synthetically
generated records when it also fails. -/
theorem execute_query_fallback_chain (db : DS.Db) (r : DS.Rng) (sql e : String)
    (h : db.run (DS.addLimit sql) = Except.error e) :
    DS.execute_query db r sql = DS.get_sample_data db r ∧
    (∀ rows, db.sampleJoin = Except.ok rows → DS.execute_query db r sql = rows) ∧
    (∀ f, db.sampleJoin = Except.error f →
      DS.execute_query db r sql = DS.generate_sample_data r ∧
      (DS.generate_sample_data r).length = 50) := by
  have h1 : DS.execute_query db r sql = DS.get_sample_data db r := by
    unfold DS.execute_query
    rw [h]
  refine ⟨h1, ?_, ?_⟩
  · intro rows hrows
    rw [h1]
    unfold DS.get_sample_data
    rw [hrows]
  · intro f hf
    refine ⟨?_, by simp [DS.generate_sample_data]⟩
    rw [h1]
    unfold DS.get_sample_data
    rw [hf]

/-- C5 witness: a database whose every call raises yields exactly the 50
synthetic records. -/
theorem execute_query_fallback_chain_check :
    DS.execute_query dbDown constDsRng "SELECT 1"
        = DS.generate_sample_data constDsRng ∧
    (DS.generate_sample_data constDsRng).length = 50 :=
  (execute_query_fallback_chain dbDown constDsRng "SELECT 1" "db down" rfl).2.2
    "no tables" rfl

theorem uniformOf_bounds (u : ℕ → ℚ) (i : ℕ) (lo hi : ℚ) (hlh : lo < hi)
    (hu : 0 ≤ u i ∧ u i < 1) :
    lo ≤ uniformOf u i lo hi ∧ uniformOf u i lo hi < hi := by
  obtain ⟨h0, h1⟩ := hu
  unfold uniformOf
  constructor <;> nlinarith

theorem roundDec_bounds (s : ℕ) (hs : 0 < s) (m n : ℤ) (q lo hi : ℚ)
    (hm : (m : ℚ) = lo) (hn : (n : ℚ) = hi) (h1 : lo ≤ q) (h2 : q ≤ hi) :
    lo ≤ roundDec s q ∧ roundDec s q ≤ hi := by
  subst hm
  subst hn
  exact ⟨roundDec_ge m s hs q h1, roundDec_le n s hs q h2⟩

theorem floatChoices_mem (f : Fin 3) :
    App.floatChoices f = 1001 ∨ App.floatChoices f = 1002 ∨
      App.floatChoices f = 1003 := by
  rcases f with ⟨v, hv⟩
  interval_cases v
  · left; rfl
  · right; left; rfl
  · right; right; rfl

/-- C6: every record of `create_sample_data` (for any unit-interval draw
stream) carries all required fields by construction and its values lie in
the configured bounds: temperature per depth band, salinity in `[34,37]`,
latitude in `[-10,10]`, longitude in `[120,180]`, and a float id among the
three simulated floats. -/
theorem create_sample_data_bounds (r : App.Rng) (hr : r.Valid)
    (rec : App.SampleRecord) (hm : rec ∈ App.create_sample_data r) :
    (rec.float_id = 1001 ∨ rec.float_id = 1002 ∨ rec.float_id = 1003) ∧
    (-10 ≤ rec.lat ∧ rec.lat ≤ 10) ∧
    (120 ≤ rec.lon ∧ rec.lon ≤ 180) ∧
    (34 ≤ rec.salinity ∧ rec.salinity ≤ 37) ∧
    (rec.depth ≤ 50 → 25 ≤ rec.temperature ∧ rec.temperature ≤ 30) ∧
    (50 < rec.depth → rec.depth ≤ 200 →
      20 ≤ rec.temperature ∧ rec.temperature ≤ 25) ∧
    (200 < rec.depth → 2 ≤ rec.temperature ∧ rec.temperature ≤ 8) := by
  obtain ⟨i, -, hrec⟩ := List.mem_map.mp hm
  subst hrec
  refine ⟨floatChoices_mem (r.floatIdx i), ?_, ?_, ?_, ?_, ?_, ?_⟩
  · have hb := uniformOf_bounds r.unit (4 * i) (-10) 10 (by norm_num) (hr (4 * i))
    exact roundDec_bounds 10000 (by norm_num) (-10) 10 _ _ _
      (by norm_num) (by norm_num) hb.1 (le_of_lt hb.2)
  · have hb := uniformOf_bounds r.unit (4 * i + 1) 120 180 (by norm_num)
      (hr (4 * i + 1))
    exact roundDec_bounds 10000 (by norm_num) 120 180 _ _ _
      (by norm_num) (by norm_num) hb.1 (le_of_lt hb.2)
  · have hb := uniformOf_bounds r.unit (4 * i + 3) 34 37 (by norm_num)
      (hr (4 * i + 3))
    exact roundDec_bounds 100 (by norm_num) 34 37 _ _ _
      (by norm_num) (by norm_num) hb.1 (le_of_lt hb.2)
  · intro hd
    have hd2 : App.depthChoices (r.depthIdx i) ≤ 50 := hd
    show 25 ≤ round2 (if App.depthChoices (r.depthIdx i) ≤ 50
        then uniformOf r.unit (4 * i + 2) 25 30
        else if App.depthChoices (r.depthIdx i) ≤ 200
          then uniformOf r.unit (4 * i + 2) 20 25
          else uniformOf r.unit (4 * i + 2) 2 8) ∧
      round2 (if App.depthChoices (r.depthIdx i) ≤ 50
        then uniformOf r.unit (4 * i + 2) 25 30
        else if App.depthChoices (r.depthIdx i) ≤ 200
          then uniformOf r.unit (4 * i + 2) 20 25
          else uniformOf r.unit (4 * i + 2) 2 8) ≤ 30
    rw [if_pos hd2]
    have hb := uniformOf_bounds r.unit (4 * i + 2) 25 30 (by norm_num)
      (hr (4 * i + 2))
    exact roundDec_bounds 100 (by norm_num) 25 30 _ _ _
      (by norm_num) (by norm_num) hb.1 (le_of_lt hb.2)
  · intro h50 h200
    have h50b : ¬ App.depthChoices (r.depthIdx i) ≤ 50 := not_le.mpr h50
    have h200b : App.depthChoices (r.depthIdx i) ≤ 200 := h200
    show 20 ≤ round2 (if App.depthChoices (r.depthIdx i) ≤ 50
        then uniformOf r.unit (4 * i + 2) 25 30
        else if App.depthChoices (r.depthIdx i) ≤ 200
          then uniformOf r.unit (4 * i + 2) 20 25
          else uniformOf r.unit (4 * i + 2) 2 8) ∧
      round2 (if App.depthChoices (r.depthIdx i) ≤ 50
        then uniformOf r.unit (4 * i + 2) 25 30
        else if App.depthChoices (r.depthIdx i) ≤ 200
          then uniformOf r.unit (4 * i + 2) 20 25
          else uniformOf r.unit (4 * i + 2) 2 8) ≤ 25
    rw [if_neg h50b, if_pos h200b]
    have hb := uniformOf_bounds r.unit (4 * i + 2) 20 25 (by norm_num)
      (hr (4 * i + 2))
    exact roundDec_bounds 100 (by norm_num) 20 25 _ _ _
      (by norm_num) (by norm_num) hb.1 (le_of_lt hb.2)
  · intro h200
    have h50b : ¬ App.depthChoices (r.depthIdx i) ≤ 50 :=
      not_le.mpr (lt_trans (by norm_num) h200)
    have h200b : ¬ App.depthChoices (r.depthIdx i) ≤ 200 := not_le.mpr h200
    show 2 ≤ round2 (if App.depthChoices (r.depthIdx i) ≤ 50
        then uniformOf r.unit (4 * i + 2) 25 30
        else if App.depthChoices (r.depthIdx i) ≤ 200
          then uniformOf r.unit (4 * i + 2) 20 25
          else uniformOf r.unit (4 * i + 2) 2 8) ∧
      round2 (if App.depthChoices (r.depthIdx i) ≤ 50
        then uniformOf r.unit (4 * i + 2) 25 30
        else if App.depthChoices (r.depthIdx i) ≤ 200
          then uniformOf r.unit (4 * i + 2) 20 25
          else uniformOf r.unit (4 * i + 2) 2 8) ≤ 8
    rw [if_neg h50b, if_neg h200b]
    have hb := uniformOf_bounds r.unit (4 * i + 2) 2 8 (by norm_num)
      (hr (4 * i + 2))
    exact roundDec_bounds 100 (by norm_num) 2 8 _ _ _
      (by norm_num) (by norm_num) hb.1 (le_of_lt hb.2)

/-- C6 witness: the constant-zero draw stream is valid and its first
record satisfies all the bounds. -/
theorem create_sample_data_bounds_check :
    -10 ≤ (App.sampleRecord constAppRng 0).lat ∧
    (App.sampleRecord constAppRng 0).lat ≤ 10 ∧
    34 ≤ (App.sampleRecord constAppRng 0).salinity ∧
    (App.sampleRecord constAppRng 0).salinity ≤ 37 := by
  have h := create_sample_data_bounds constAppRng
    (by intro i; constructor <;> simp [constAppRng])
    (App.sampleRecord constAppRng 0)
    (List.mem_map.mpr ⟨0, List.mem_range.mpr (by norm_num), rfl⟩)
  exact ⟨h.2.1.1, h.2.1.2, h.2.2.2.1.1, h.2.2.2.1.2⟩

/-- C10: the prototype login never rejects — every credentials dict gets
a bearer response whose role is decided solely by substrings of the email
field, with access token `demo_token_` ++ role. -/
theorem login_accepts_all_role_by_email (c1 c2 : List (String × String))
    (h : SM.getField c1 "email" = SM.getField c2 "email") :
    (SM.login c1).tokenType = "bearer" ∧
    (SM.login c1).accessToken = "demo_token_" ++ (SM.login c1).role ∧
    (SM.login c1).role = (SM.login c2).role ∧
    (SM.login c1).role =
      (if containsSub "scientist" (SM.getField c1 "email") then "scientist"
       else if containsSub "policy" (SM.getField c1 "email") then "policy_maker"
       else if containsSub "student" (SM.getField c1 "email") then "student"
       else "scientist") := by
  refine ⟨rfl, rfl, ?_, rfl⟩
  show (if containsSub "scientist" (SM.getField c1 "email") then "scientist"
        else if containsSub "policy" (SM.getField c1 "email") then "policy_maker"
        else if containsSub "student" (SM.getField c1 "email") then "student"
        else "scientist")
      = (if containsSub "scientist" (SM.getField c2 "email") then "scientist"
        else if containsSub "policy" (SM.getField c2 "email") then "policy_maker"
        else if containsSub "student" (SM.getField c2 "email") then "student"
        else "scientist")
  rw [h]

/-- C10 witness: two credential dicts sharing the email containing
`policy` receive the same role, with the token derived from it. -/
theorem login_accepts_all_role_by_email_check :
    (SM.login [("email", "jane.policy@example.org"), ("password", "x")]).role =
      (SM.login [("email", "jane.policy@example.org")]).role ∧
    (SM.login [("email", "jane.policy@example.org"), ("password", "x")]).accessToken =
      "demo_token_"
        ++ (SM.login [("email", "jane.policy@example.org"), ("password", "x")]).role := by
  have h := login_accepts_all_role_by_email
    [("email", "jane.policy@example.org"), ("password", "x")]
    [("email", "jane.policy@example.org")] (by decide)
  exact ⟨h.2.2.1, h.2.1⟩

